import Mathlib

/-!
Verification of the configuration-and-connection layer of sql-migrate
(file sql-migrate/config.go).

The Go code is shallowly embedded as pure Lean functions.  External
effects (filesystem reads, YAML parsing, the process environment, the
database driver) are supplied as explicit parameters, and the global
side effects performed by the code (the migration-engine setters and the
MySQL TLS registry) are recorded as an explicit event trace returned
alongside each result.  Go errors are modelled as the String carried by
an Except value.
-/

namespace SqlMigrate

/-- Environment mirrors the Go struct Environment in config.go: the
per-environment configuration record parsed from the YAML file. -/
structure Environment where
  Dialect : String
  DataSource : String
  Dir : String
  TableName : String
  SchemaName : String
  IgnoreUnknown : Bool
  deriving DecidableEq

/-- A dialect value of the gorp library, mirroring the values stored in
the dialects map of config.go. -/
inductive GorpDialect where
  | SqliteDialect
  | PostgresDialect
  | MySQLDialect (engine encoding : String)
  deriving DecidableEq

/-- dialects mirrors the static map from dialect name to gorp dialect in
config.go; a Go map literal is modelled as an association list. -/
def dialects : List (String × GorpDialect) :=
  [("sqlite3", GorpDialect.SqliteDialect),
   ("postgres", GorpDialect.PostgresDialect),
   ("mysql", GorpDialect.MySQLDialect "InnoDB" "UTF8")]

/-- Observable side effects of the embedded code: calls into the
migration engine global setters, the MySQL TLS registry, and the
database/sql package. -/
inductive Event where
  | setTable (name : String)
  | setSchema (name : String)
  | setIgnoreUnknown (b : Bool)
  | registerTlsInvoked (pemPath key serverName : String)
  | mysqlRegisterTLSConfig (key serverName : String)
  | sqlOpenCall (driverName dataSourceName : String)
  | dbPingCall
  deriving DecidableEq

/-- goStringsContains models strings.Contains from the Go standard
library: substr occurs as a contiguous substring of s. -/
def goStringsContains (s substr : String) : Bool :=
  decide (substr.toList <:+: s.toList)

/-- isTlsEnabled mirrors isTlsEnabled in config.go:
strings.Contains(env.DataSource, "tls=custom"). -/
def isTlsEnabled (env : Environment) : Bool :=
  goStringsContains env.DataSource "tls=custom"

/-- isShellSpecialVar models isShellSpecialVar from the Go os package:
the one-character shell variables recognised by os.Expand. -/
def isShellSpecialVar (c : Char) : Bool :=
  c == '*' || c == '#' || c == '$' || c == '@' || c == '!' || c == '?' ||
  c == '-' || c.isDigit

/-- isAlphaNum models isAlphaNum from the Go os package: underscore,
digits and ASCII letters. -/
def isAlphaNum (c : Char) : Bool :=
  c == '_' || c.isDigit || c.isLower || c.isUpper

/-- scanToClosingBrace models the brace-scanning loop of getShellName in
the Go os package, applied to the characters after the opening brace.
It returns the name found and the number of characters of the input of
getShellName that were consumed. -/
def scanToClosingBrace (rest : List Char) : List Char × Nat :=
  match List.findIdx? (fun c => c == '\x7d') rest with
  | none => ([], 1)
  | some 0 => ([], 2)
  | some j => (List.take j rest, j + 2)

/-- getShellName models getShellName from the Go os package: given the
characters following a dollar sign, it returns the referenced variable
name and the number of characters consumed. -/
def getShellName : List Char → List Char × Nat
  | [] => ([], 0)
  | '\x7b' :: rest =>
    match rest with
    | c :: '\x7d' :: _ =>
      if isShellSpecialVar c then ([c], 3) else scanToClosingBrace rest
    | _ => scanToClosingBrace rest
  | c :: rest =>
    if isShellSpecialVar c then ([c], 1)
    else
      let name := List.takeWhile isAlphaNum (c :: rest)
      (name, name.length)

/-- expandGo models os.Expand from the Go standard library on a list of
characters: every dollar placeholder is replaced by the value of the
mapping at the referenced name.  Every step consumes at least one
character, so the fuel parameter is immaterial whenever it is at least
the length of the input; it only makes the recursion structural. -/
def expandGo (mapping : String → String) : Nat → List Char → List Char
  | _, [] => []
  | 0, cs => cs
  | _ + 1, '$' :: [] => ['$']
  | fuel + 1, '$' :: c :: rest =>
    let nw := getShellName (c :: rest)
    let repl :=
      if nw.1 = [] then (if nw.2 > 0 then [] else ['$'])
      else (mapping (String.mk nw.1)).toList
    repl ++ expandGo mapping fuel (List.drop nw.2 (c :: rest))
  | fuel + 1, c :: rest => c :: expandGo mapping fuel rest

/-- expandEnv models os.ExpandEnv: os.Expand with the process
environment as the mapping (an unset variable maps to the empty
string, exactly as os.Getenv). -/
def expandEnv (getenv : String → String) (s : String) : String :=
  String.mk (expandGo getenv s.toList.length s.toList)

/-- A parsed configuration file: the Go value map[string]*Environment.
A YAML null value for a key parses to a nil pointer, modelled as none. -/
abbrev Config := List (String × Option Environment)

/-- goMapGet models indexing a Go map of pointers: a missing key and a
key stored with a nil pointer both yield nil. -/
def goMapGet (config : Config) (k : String) : Option Environment :=
  match List.lookup k config with
  | none => none
  | some v => v

/-- ReadConfig mirrors ReadConfig in config.go.  The filesystem read of
the configuration file and the YAML unmarshalling are external, so
their outcomes are parameters. -/
def ReadConfig (readFile : Except String String)
    (yamlUnmarshal : String → Except String Config) : Except String Config :=
  match readFile with
  | .error e => .error e
  | .ok file =>
    match yamlUnmarshal file with
    | .error e => .error e
    | .ok config => .ok config

/-- GetEnvironment mirrors GetEnvironment in config.go.  getenv is the
process environment; readFile and yamlUnmarshal feed ReadConfig;
configEnvironment is the selected environment name.  The returned trace
records the migration-engine setter calls performed. -/
def GetEnvironment (getenv : String → String)
    (readFile : Except String String)
    (yamlUnmarshal : String → Except String Config)
    (configEnvironment : String) :
    Except String Environment × List Event :=
  match ReadConfig readFile yamlUnmarshal with
  | .error e => (.error e, [])
  | .ok config =>
    match goMapGet config configEnvironment with
    | none => (.error ("No environment: " ++ configEnvironment), [])
    | some env0 =>
      if env0.Dialect = "" then (.error "No dialect specified", [])
      else if env0.DataSource = "" then (.error "No data source specified", [])
      else
        let env1 := { env0 with DataSource := expandEnv getenv env0.DataSource }
        let env2 := if env1.Dir = "" then { env1 with Dir := "migrations" } else env1
        let evTable :=
          if env2.TableName ≠ "" then [Event.setTable env2.TableName] else []
        let evSchema :=
          if env2.SchemaName ≠ "" then [Event.setSchema env2.SchemaName] else []
        (.ok env2, evTable ++ evSchema ++ [Event.setIgnoreUnknown env2.IgnoreUnknown])

/-- The external collaborators of GetConnection and RegisterTlsConfig:
the process environment, the filesystem, the x509 certificate pool, and
the database/sql driver.  Each call outcome is a parameter, so theorems
quantify over every possible behaviour of the externals. -/
structure World where
  getenv : String → String
  readFile : String → Except String String
  appendCertsFromPEM : String → Bool
  sqlOpen : String → String → Except String Unit
  dbPing : Except String Unit

/-- RegisterTlsConfig mirrors RegisterTlsConfig in config.go: read the
PEM file, append its certificates to a fresh pool, and register the TLS
configuration with the MySQL driver under the given key. -/
def RegisterTlsConfig (w : World) (pemPath tlsConfigKey serverName : String) :
    Except String Unit × List Event :=
  match w.readFile pemPath with
  | .error e => (.error e, [])
  | .ok pem =>
    if w.appendCertsFromPEM pem then
      (.ok (), [Event.mysqlRegisterTLSConfig tlsConfigKey serverName])
    else
      (.error "cannot append certs from PEM", [])

/-- GetConnection mirrors GetConnection in config.go: optionally
register a custom TLS configuration, open the database handle, ping it,
and confirm the dialect was compiled in.  On success the Go function
returns the handle and the dialect string; the handle carries no
information in this model, so only the dialect string is returned. -/
def GetConnection (w : World) (env : Environment) :
    Except String String × List Event :=
  let tls : Except String Unit × List Event :=
    if env.Dialect == "mysql" && isTlsEnabled env then
      let pemPath := w.getenv "MYSQL_CA_CERT_FILE"
      let serverName := w.getenv "MYSQL_HOST"
      let reg := RegisterTlsConfig w pemPath "custom" serverName
      (reg.1, Event.registerTlsInvoked pemPath "custom" serverName :: reg.2)
    else (.ok (), [])
  match tls.1 with
  | .error e => (.error ("cannot register TLS config: " ++ e), tls.2)
  | .ok _ =>
    match w.sqlOpen env.Dialect env.DataSource with
    | .error e =>
      (.error ("cannot connect to database: " ++ e),
       tls.2 ++ [Event.sqlOpenCall env.Dialect env.DataSource])
    | .ok _ =>
      match w.dbPing with
      | .error e =>
        (.error ("cannot ping database: " ++ e),
         tls.2 ++ [Event.sqlOpenCall env.Dialect env.DataSource, Event.dbPingCall])
      | .ok _ =>
        if (List.lookup env.Dialect dialects).isSome then
          (.ok env.Dialect,
           tls.2 ++ [Event.sqlOpenCall env.Dialect env.DataSource, Event.dbPingCall])
        else
          (.error ("unsupported dialect: " ++ env.Dialect),
           tls.2 ++ [Event.sqlOpenCall env.Dialect env.DataSource, Event.dbPingCall])

/-- Helper: the concatenation of two strings always contains its second
part as a substring. -/
theorem goStringsContains_append_right (a b : String) :
    goStringsContains (a ++ b) b = true := by
  unfold goStringsContains
  simp only [decide_eq_true_eq]
  exact ⟨a.toList, [], by simp [String.toList]⟩

/-- C2: resolving an environment whose dialect is empty fails with the
"No dialect specified" error, and one with a non-empty dialect but an
empty data source fails with the "No data source specified" error; the
dialect check comes first, so an environment with both fields empty
yields the dialect error. -/
theorem getEnvironment_validation_order (getenv : String → String)
    (readFile : Except String String)
    (yamlUnmarshal : String → Except String Config)
    (config : Config) (name : String) (env : Environment)
    (hread : ReadConfig readFile yamlUnmarshal = .ok config)
    (hlook : goMapGet config name = some env) :
    (env.Dialect = "" →
      GetEnvironment getenv readFile yamlUnmarshal name =
        (.error "No dialect specified", [])) ∧
    (env.Dialect ≠ "" → env.DataSource = "" →
      GetEnvironment getenv readFile yamlUnmarshal name =
        (.error "No data source specified", [])) := by
  unfold GetEnvironment
  simp only [hread, hlook]
  constructor
  · intro h
    simp [h]
  · intro h h2
    simp [h, h2]

theorem getEnvironment_validation_order_witness :
    GetEnvironment (fun _ => "") (.ok "")
        (fun _ => .ok [("development", some ⟨"", "", "", "", "", false⟩)])
        "development" = (.error "No dialect specified", []) ∧
    GetEnvironment (fun _ => "") (.ok "")
        (fun _ => .ok [("development", some ⟨"postgres", "", "", "", "", false⟩)])
        "development" = (.error "No data source specified", []) := by
  constructor
  · exact (getEnvironment_validation_order (fun _ => "") (.ok "")
      (fun _ => .ok [("development", some ⟨"", "", "", "", "", false⟩)])
      [("development", some ⟨"", "", "", "", "", false⟩)] "development"
      ⟨"", "", "", "", "", false⟩ rfl rfl).1 rfl
  · exact (getEnvironment_validation_order (fun _ => "") (.ok "")
      (fun _ => .ok [("development", some ⟨"postgres", "", "", "", "", false⟩)])
      [("development", some ⟨"postgres", "", "", "", "", false⟩)] "development"
      ⟨"postgres", "", "", "", "", false⟩ rfl rfl).2 (by decide) rfl

/-- C3: resolving a valid entry (non-empty dialect and data source)
succeeds, and the returned descriptor carries the data source with every
environment-variable placeholder expanded by os.ExpandEnv against the
process environment, the configured directory, or "migrations" when the
configured directory is empty, and all other fields unchanged. -/
theorem getEnvironment_success (getenv : String → String)
    (readFile : Except String String)
    (yamlUnmarshal : String → Except String Config)
    (config : Config) (name : String) (env : Environment)
    (hread : ReadConfig readFile yamlUnmarshal = .ok config)
    (hlook : goMapGet config name = some env)
    (hd : env.Dialect ≠ "") (hds : env.DataSource ≠ "") :
    (GetEnvironment getenv readFile yamlUnmarshal name).1 =
      .ok { env with
              DataSource := expandEnv getenv env.DataSource
              Dir := if env.Dir = "" then "migrations" else env.Dir } := by
  unfold GetEnvironment
  simp only [hread, hlook]
  by_cases hdir : env.Dir = "" <;> simp [hd, hds, hdir]

theorem getEnvironment_success_witness :
    (GetEnvironment
        (fun v => if v = "DB_URL" then "sqlite:///tmp/x.db" else "")
        (.ok "")
        (fun _ => .ok [("production",
          some ⟨"postgres", "$\x7bDB_URL\x7d", "", "custom_migrations", "", false⟩)])
        "production").1 =
      .ok ⟨"postgres", "sqlite:///tmp/x.db", "migrations", "custom_migrations", "", false⟩ := by
  have h := getEnvironment_success
    (fun v => if v = "DB_URL" then "sqlite:///tmp/x.db" else "")
    (.ok "") (fun _ => .ok [("production",
      some ⟨"postgres", "$\x7bDB_URL\x7d", "", "custom_migrations", "", false⟩)])
    [("production",
      some ⟨"postgres", "$\x7bDB_URL\x7d", "", "custom_migrations", "", false⟩)]
    "production" ⟨"postgres", "$\x7bDB_URL\x7d", "", "custom_migrations", "", false⟩
    rfl rfl (by decide) (by decide)
  rw [h]
  exact congrArg Except.ok (by decide)

/-- C7: resolving a name that is absent from the parsed configuration
fails with an error message that contains the requested name. -/
theorem getEnvironment_missing_name (getenv : String → String)
    (readFile : Except String String)
    (yamlUnmarshal : String → Except String Config)
    (config : Config) (name : String)
    (hread : ReadConfig readFile yamlUnmarshal = .ok config)
    (hlook : List.lookup name config = none) :
    (GetEnvironment getenv readFile yamlUnmarshal name).1 =
      .error ("No environment: " ++ name) ∧
    goStringsContains ("No environment: " ++ name) name = true := by
  have hg : goMapGet config name = none := by
    unfold goMapGet
    rw [hlook]
  constructor
  · unfold GetEnvironment
    simp only [hread, hg]
  · exact goStringsContains_append_right "No environment: " name

theorem getEnvironment_missing_name_witness :
    (GetEnvironment (fun _ => "") (.ok "") (fun _ => .ok []) "staging").1 =
      .error ("No environment: " ++ "staging") ∧
    goStringsContains ("No environment: " ++ "staging") "staging" = true :=
  getEnvironment_missing_name (fun _ => "") (.ok "") (fun _ => .ok []) [] "staging"
    rfl rfl

/-- C9: a configuration key present but mapped to a YAML null parses to
a nil pointer, and resolution fails with the same "No environment" error
as a missing key, not with the missing-dialect error. -/
theorem getEnvironment_null_entry (getenv : String → String)
    (readFile : Except String String)
    (yamlUnmarshal : String → Except String Config)
    (config : Config) (name : String)
    (hread : ReadConfig readFile yamlUnmarshal = .ok config)
    (hlook : List.lookup name config = some none) :
    (GetEnvironment getenv readFile yamlUnmarshal name).1 =
      .error ("No environment: " ++ name) := by
  have hg : goMapGet config name = none := by
    unfold goMapGet
    rw [hlook]
  unfold GetEnvironment
  simp only [hread, hg]

theorem getEnvironment_null_entry_witness :
    (GetEnvironment (fun _ => "") (.ok "")
        (fun _ => .ok [("development", none)]) "development").1 =
      .error ("No environment: " ++ "development") :=
  getEnvironment_null_entry (fun _ => "") (.ok "")
    (fun _ => .ok [("development", none)]) [("development", none)] "development"
    rfl rfl

/-- C8: whenever environment resolution returns an error, its event
trace is empty: no migration-engine global setter was called on any
error path. -/
theorem getEnvironment_error_no_side_effects (getenv : String → String)
    (readFile : Except String String)
    (yamlUnmarshal : String → Except String Config)
    (name : String) (e : String)
    (h : (GetEnvironment getenv readFile yamlUnmarshal name).1 = .error e) :
    (GetEnvironment getenv readFile yamlUnmarshal name).2 = [] := by
  unfold GetEnvironment at h ⊢
  rcases hr : ReadConfig readFile yamlUnmarshal with e0 | config
  · simp [hr]
  · simp only [hr] at h ⊢
    rcases hl : goMapGet config name with _ | env
    · simp [hl]
    · simp only [hl] at h ⊢
      by_cases hd : env.Dialect = ""
      · simp [hd]
      · by_cases hds : env.DataSource = ""
        · simp [hd, hds]
        · simp [hd, hds] at h

theorem getEnvironment_error_no_side_effects_witness :
    (GetEnvironment (fun _ => "") (.error "open dbconfig.yml: no such file")
        (fun _ => .ok []) "development").2 = [] :=
  getEnvironment_error_no_side_effects (fun _ => "")
    (.error "open dbconfig.yml: no such file") (fun _ => .ok []) "development"
    "open dbconfig.yml: no such file" rfl

/-- C6: on successful resolution, a table-name setter event occurs iff
the configured table name is non-empty (and carries exactly that name),
a schema-name setter event occurs iff the configured schema name is
non-empty (and carries exactly that name), and the ignore-unknown
setter event always occurs with the configured boolean value. -/
theorem getEnvironment_setter_events (getenv : String → String)
    (readFile : Except String String)
    (yamlUnmarshal : String → Except String Config)
    (config : Config) (name : String) (env : Environment)
    (hread : ReadConfig readFile yamlUnmarshal = .ok config)
    (hlook : goMapGet config name = some env)
    (hd : env.Dialect ≠ "") (hds : env.DataSource ≠ "") :
    ((∃ t, Event.setTable t ∈ (GetEnvironment getenv readFile yamlUnmarshal name).2) ↔
      env.TableName ≠ "") ∧
    (∀ t, Event.setTable t ∈ (GetEnvironment getenv readFile yamlUnmarshal name).2 →
      t = env.TableName) ∧
    ((∃ s, Event.setSchema s ∈ (GetEnvironment getenv readFile yamlUnmarshal name).2) ↔
      env.SchemaName ≠ "") ∧
    (∀ s, Event.setSchema s ∈ (GetEnvironment getenv readFile yamlUnmarshal name).2 →
      s = env.SchemaName) ∧
    Event.setIgnoreUnknown env.IgnoreUnknown ∈
      (GetEnvironment getenv readFile yamlUnmarshal name).2 := by
  unfold GetEnvironment
  simp only [hread, hlook]
  by_cases hdir : env.Dir = "" <;>
    by_cases ht : env.TableName = "" <;>
      by_cases hs : env.SchemaName = "" <;>
        simp [hd, hds, hdir, ht, hs]

theorem getEnvironment_setter_events_witness :
    Event.setIgnoreUnknown false ∈
        (GetEnvironment (fun _ => "") (.ok "")
          (fun _ => .ok [("production",
            some ⟨"postgres", "db", "", "custom_migrations", "", false⟩)])
          "production").2 :=
  (getEnvironment_setter_events (fun _ => "") (.ok "")
    (fun _ => .ok [("production",
      some ⟨"postgres", "db", "", "custom_migrations", "", false⟩)])
    [("production", some ⟨"postgres", "db", "", "custom_migrations", "", false⟩)]
    "production" ⟨"postgres", "db", "", "custom_migrations", "", false⟩
    rfl rfl (by decide) (by decide)).2.2.2.2

/-- Helper: every event emitted by RegisterTlsConfig is a registration
of the TLS configuration with the MySQL driver. -/
theorem registerTlsConfig_events (w : World) (p k sn : String) (e : Event)
    (h : e ∈ (RegisterTlsConfig w p k sn).2) :
    e = Event.mysqlRegisterTLSConfig k sn := by
  unfold RegisterTlsConfig at h
  rcases hr : w.readFile p with e0 | pem <;> simp only [hr] at h
  · simp at h
  · by_cases ha : w.appendCertsFromPEM pem <;> simp [ha] at h
    exact h

/-- Helper: when RegisterTlsConfig fails, it emits no event. -/
theorem registerTlsConfig_error_no_events (w : World) (p k sn : String) (e : String)
    (h : (RegisterTlsConfig w p k sn).1 = .error e) :
    (RegisterTlsConfig w p k sn).2 = [] := by
  unfold RegisterTlsConfig at h ⊢
  rcases hr : w.readFile p with e0 | pem
  · simp [hr]
  · simp only [hr] at h ⊢
    by_cases ha : w.appendCertsFromPEM pem <;> simp [ha] at h ⊢

/-- Helper: when the TLS branch of GetConnection is not taken, every
event in the trace is a database open or ping call. -/
theorem getConnection_no_tls_trace (w : World) (env : Environment)
    (hc : (env.Dialect == "mysql" && isTlsEnabled env) = false) :
    ∀ e ∈ (GetConnection w env).2,
      e = Event.sqlOpenCall env.Dialect env.DataSource ∨ e = Event.dbPingCall := by
  intro e he
  unfold GetConnection at he
  simp only [hc, Bool.false_eq_true, if_false] at he
  rcases ho : w.sqlOpen env.Dialect env.DataSource with e1 | u <;> simp only [ho] at he
  · simp at he
    exact .inl he
  · rcases hp : w.dbPing with e2 | u2 <;> simp only [hp] at he
    · simp at he
      exact he
    · by_cases hl : (List.lookup env.Dialect dialects).isSome = true <;>
        simp [hl] at he <;> exact he

/-- Helper: when the TLS branch of GetConnection is taken, the trace
records the TLS registration invocation with the paths read from the
process environment and the fixed key. -/
theorem getConnection_tls_trace_head (w : World) (env : Environment)
    (hc : (env.Dialect == "mysql" && isTlsEnabled env) = true) :
    Event.registerTlsInvoked (w.getenv "MYSQL_CA_CERT_FILE") "custom"
      (w.getenv "MYSQL_HOST") ∈ (GetConnection w env).2 := by
  unfold GetConnection
  simp only [hc, if_true]
  rcases hreg : (RegisterTlsConfig w (w.getenv "MYSQL_CA_CERT_FILE") "custom"
      (w.getenv "MYSQL_HOST")).1 with e0 | u <;> simp only [hreg]
  · simp
  · rcases ho : w.sqlOpen env.Dialect env.DataSource with e1 | u2 <;> simp only [ho]
    · simp
    · rcases hp : w.dbPing with e2 | u3 <;> simp only [hp]
      · simp
      · by_cases hl : (List.lookup env.Dialect dialects).isSome = true <;> simp [hl]

/-- C1: the connection opener invokes TLS registration if and only if
the dialect is mysql and the data source contains the substring
tls=custom; for any other dialect or marker-free data source it never
invokes it. -/
theorem getConnection_tls_registration_iff (w : World) (env : Environment) :
    (∃ p k sn, Event.registerTlsInvoked p k sn ∈ (GetConnection w env).2) ↔
      (env.Dialect = "mysql" ∧ goStringsContains env.DataSource "tls=custom" = true) := by
  by_cases hc : (env.Dialect == "mysql" && isTlsEnabled env) = true
  · refine iff_of_true
      ⟨w.getenv "MYSQL_CA_CERT_FILE", "custom", w.getenv "MYSQL_HOST",
        getConnection_tls_trace_head w env hc⟩ ?_
    rw [Bool.and_eq_true, beq_iff_eq] at hc
    exact ⟨hc.1, hc.2⟩
  · rw [Bool.not_eq_true] at hc
    refine iff_of_false ?_ ?_
    · rintro ⟨p, k, sn, hmem⟩
      rcases getConnection_no_tls_trace w env hc _ hmem with h | h <;> simp at h
    · rintro ⟨h1, h2⟩
      rw [Bool.and_eq_false_iff] at hc
      rcases hc with hc | hc
      · rw [beq_eq_false_iff_ne] at hc
        exact hc h1
      · unfold isTlsEnabled at hc
        rw [h2] at hc
        exact Bool.noConfusion hc

/-- Helper: a successful GetConnection returns the dialect of the input
descriptor, and that dialect passed the compiled-in registry check. -/
theorem getConnection_ok_inversion (w : World) (env : Environment) (d : String)
    (h : (GetConnection w env).1 = .ok d) :
    d = env.Dialect ∧ (List.lookup env.Dialect dialects).isSome = true := by
  unfold GetConnection at h
  by_cases hc : (env.Dialect == "mysql" && isTlsEnabled env) = true <;>
    simp only [hc, Bool.false_eq_true, if_true, if_false] at h
  case pos =>
    rcases hreg : (RegisterTlsConfig w (w.getenv "MYSQL_CA_CERT_FILE") "custom"
        (w.getenv "MYSQL_HOST")).1 with e0 | u <;> simp only [hreg] at h
    · simp at h
    · rcases ho : w.sqlOpen env.Dialect env.DataSource with e1 | u2 <;>
        simp only [ho] at h
      · simp at h
      · rcases hp : w.dbPing with e2 | u3 <;> simp only [hp] at h
        · simp at h
        · by_cases hl : (List.lookup env.Dialect dialects).isSome = true <;>
            simp [hl] at h
          exact ⟨h.symm, hl⟩
  case neg =>
    rcases ho : w.sqlOpen env.Dialect env.DataSource with e1 | u2 <;>
      simp only [ho] at h
    · simp at h
    · rcases hp : w.dbPing with e2 | u3 <;> simp only [hp] at h
      · simp at h
      · by_cases hl : (List.lookup env.Dialect dialects).isSome = true <;>
          simp [hl] at h
        exact ⟨h.symm, hl⟩

/-- C10: whenever GetConnection succeeds, the dialect string it returns
equals the dialect of the input descriptor and is a member of the
static compiled-in set; it never returns a dialect outside that set on
success. -/
theorem getConnection_success_dialect (w : World) (env : Environment) (d : String)
    (h : (GetConnection w env).1 = .ok d) :
    d = env.Dialect ∧ (List.lookup d dialects).isSome = true := by
  obtain ⟨h1, h2⟩ := getConnection_ok_inversion w env d h
  refine ⟨h1, ?_⟩
  rw [h1]
  exact h2

theorem getConnection_success_dialect_witness :
    (GetConnection
        ⟨fun _ => "", fun _ => .error "no file", fun _ => false,
          fun _ _ => .ok (), .ok ()⟩
        ⟨"sqlite3", "/tmp/x.db", "", "", "", false⟩).1 = .ok "sqlite3" ∧
    ("sqlite3" : String) = "sqlite3" ∧
    (List.lookup "sqlite3" dialects).isSome = true := by
  have h : (GetConnection
      ⟨fun _ => "", fun _ => .error "no file", fun _ => false,
        fun _ _ => .ok (), .ok ()⟩
      ⟨"sqlite3", "/tmp/x.db", "", "", "", false⟩).1 = .ok "sqlite3" := rfl
  have h2 := getConnection_success_dialect
    ⟨fun _ => "", fun _ => .error "no file", fun _ => false,
      fun _ _ => .ok (), .ok ()⟩
    ⟨"sqlite3", "/tmp/x.db", "", "", "", false⟩ "sqlite3" h
  exact ⟨h, h2.1, h2.2⟩

/-- C4: opening a connection with a dialect outside the compiled-in set
never succeeds, and when the externally supplied open and ping calls
succeed it fails precisely with the unsupported-dialect error. -/
theorem getConnection_unsupported_dialect (w : World) (env : Environment)
    (h : List.lookup env.Dialect dialects = none) :
    (∀ d, (GetConnection w env).1 ≠ .ok d) ∧
    (w.sqlOpen env.Dialect env.DataSource = .ok () → w.dbPing = .ok () →
      (GetConnection w env).1 = .error ("unsupported dialect: " ++ env.Dialect)) := by
  have hbe : (env.Dialect == "mysql") = false := by
    rw [beq_eq_false_iff_ne]
    intro he
    rw [he] at h
    exact absurd h (by decide)
  have hc : (env.Dialect == "mysql" && isTlsEnabled env) = false := by
    rw [hbe]
    rfl
  constructor
  · intro d hd
    have h2 := (getConnection_ok_inversion w env d hd).2
    rw [h] at h2
    simp at h2
  · intro hopen hping
    unfold GetConnection
    simp only [hc, Bool.false_eq_true, if_false, hopen, hping]
    simp [h]

theorem getConnection_unsupported_dialect_witness :
    (GetConnection
        ⟨fun _ => "", fun _ => .error "no file", fun _ => false,
          fun _ _ => .ok (), .ok ()⟩
        ⟨"mssql", "server=h;", "", "", "", false⟩).1 ≠ .ok "mssql" ∧
    (GetConnection
        ⟨fun _ => "", fun _ => .error "no file", fun _ => false,
          fun _ _ => .ok (), .ok ()⟩
        ⟨"mssql", "server=h;", "", "", "", false⟩).1 =
      .error ("unsupported dialect: " ++ "mssql") := by
  have h := getConnection_unsupported_dialect
    ⟨fun _ => "", fun _ => .error "no file", fun _ => false,
      fun _ _ => .ok (), .ok ()⟩
    ⟨"mssql", "server=h;", "", "", "", false⟩ (by decide)
  exact ⟨h.1 "mssql", h.2 rfl rfl⟩

/-- C5: for a mysql environment whose data source contains the custom
TLS marker, if reading the CA certificate file named by
MYSQL_CA_CERT_FILE fails, or its content cannot be appended to the
certificate pool, then GetConnection fails with the wrapped TLS
registration error and the database open call is never reached. -/
theorem getConnection_tls_failure (w : World) (env : Environment)
    (hd : env.Dialect = "mysql") (hm : isTlsEnabled env = true)
    (hfail : (∃ e, w.readFile (w.getenv "MYSQL_CA_CERT_FILE") = .error e) ∨
             ∃ pem, w.readFile (w.getenv "MYSQL_CA_CERT_FILE") = .ok pem ∧
                    w.appendCertsFromPEM pem = false) :
    (∃ e, (GetConnection w env).1 = .error ("cannot register TLS config: " ++ e)) ∧
    ∀ dr ds, Event.sqlOpenCall dr ds ∉ (GetConnection w env).2 := by
  have hc : (env.Dialect == "mysql" && isTlsEnabled env) = true := by
    rw [Bool.and_eq_true, beq_iff_eq]
    exact ⟨hd, hm⟩
  have hreg : ∃ e, (RegisterTlsConfig w (w.getenv "MYSQL_CA_CERT_FILE") "custom"
      (w.getenv "MYSQL_HOST")).1 = .error e := by
    unfold RegisterTlsConfig
    rcases hfail with ⟨e, he⟩ | ⟨pem, hp, ha⟩
    · rw [he]
      exact ⟨e, rfl⟩
    · rw [hp]
      simp [ha]
  obtain ⟨e, he⟩ := hreg
  have hev := registerTlsConfig_error_no_events w (w.getenv "MYSQL_CA_CERT_FILE")
    "custom" (w.getenv "MYSQL_HOST") e he
  constructor
  · refine ⟨e, ?_⟩
    unfold GetConnection
    simp only [hc, if_true, he]
  · intro dr ds hmem
    unfold GetConnection at hmem
    simp only [hc, if_true, he, hev] at hmem
    simp at hmem

theorem getConnection_tls_failure_witness :
    (GetConnection
        ⟨fun _ => "/nonexistent", fun _ => .error "no such file or directory",
          fun _ => true, fun _ _ => .ok (), .ok ()⟩
        ⟨"mysql", "u:p@tcp(h:3306)/db?tls=custom", "", "", "", false⟩).1 =
      .error ("cannot register TLS config: " ++ "no such file or directory") ∧
    Event.sqlOpenCall "mysql" "u:p@tcp(h:3306)/db?tls=custom" ∉
      (GetConnection
        ⟨fun _ => "/nonexistent", fun _ => .error "no such file or directory",
          fun _ => true, fun _ _ => .ok (), .ok ()⟩
        ⟨"mysql", "u:p@tcp(h:3306)/db?tls=custom", "", "", "", false⟩).2 :=
  ⟨rfl,
    (getConnection_tls_failure
      ⟨fun _ => "/nonexistent", fun _ => .error "no such file or directory",
        fun _ => true, fun _ _ => .ok (), .ok ()⟩
      ⟨"mysql", "u:p@tcp(h:3306)/db?tls=custom", "", "", "", false⟩
      rfl (by decide) (.inl ⟨"no such file or directory", rfl⟩)).2
      "mysql" "u:p@tcp(h:3306)/db?tls=custom"⟩

end SqlMigrate
